import Mathlib

/-!
Verification of the IrDA socket wrapper (src/irda.c) against its
natural-language specification.

The module wraps the host OS socket layer. We embed it shallowly: every
interaction with the operating system (socket, select, recv, send,
getsockopt, ioctl, shutdown, close) is represented by an explicit outcome
supplied as an argument — a single outcome for one-shot calls, a trace
(list) of outcomes for the calls issued inside loops. Each Lean function
mirrors the control flow of the corresponding C function; when a loop
needs one more OS outcome than the trace provides, the function returns
none (the finite trace does not determine the behaviour), otherwise
some r where r is the int the C function returns. Machine integers are
modelled as Int / Nat with explicit % 256 where the C code masks bytes.
-/

set_option autoImplicit false

/-- Device handle; mirrors struct irda (irda.c lines 41-48): an OS socket
descriptor and a read timeout in milliseconds. -/
structure irda where
  fd : Int
  timeout : Int
deriving DecidableEq, Repr

/-- Maximum number of devices in the discovery buffer (irda.c line 203). -/
def DISCOVER_MAX_DEVICES : Nat := 16

/-- Maximum number of discovery retries (irda.c line 204). -/
def DISCOVER_MAX_RETRIES : Nat := 4

/-- Embeds irda_socket_open (irda.c lines 129-160). Inputs model the
environment: outNull — the out parameter is NULL; mallocOk — malloc
succeeds; socketFd — some fd when the socket call succeeds, none when it
fails. Returns the C return value together with the handle stored into
the out slot (none when nothing is stored; on socket failure the partially
constructed handle is freed before returning). The timeout defaults to -1,
blocking reads (line 143). -/
def irda_socket_open (outNull : Bool) (mallocOk : Bool) (socketFd : Option Int) :
    Int × Option irda :=
  if outNull then (-1, none)
  else if !mallocOk then (-1, none)
  else
    match socketFd with
    | none => (-1, none)
    | some fd => (0, some { fd := fd, timeout := -1 })

/-- Result of irda_socket_close: the C return value, whether free was
called on the handle memory, and whether the shutdown request was issued. -/
structure CloseResult where
  ret : Int
  freed : Bool
  shutdownCalled : Bool
deriving DecidableEq, Repr

/-- Embeds irda_socket_close (irda.c lines 163-188). shutdownOk is the
outcome of the shutdown call — the C code ignores it, so it does not
influence the result; closeOk is the outcome of the close / closesocket
call. The memory is freed on both the failure path (line 180) and the
success path (line 185). -/
def irda_socket_close (device : Option irda) (shutdownOk : Bool) (closeOk : Bool) :
    CloseResult :=
  match device with
  | none => { ret := -1, freed := false, shutdownCalled := false }
  | some _ =>
    if closeOk then { ret := 0, freed := true, shutdownCalled := true }
    else { ret := -1, freed := true, shutdownCalled := true }

/-- Embeds irda_socket_set_timeout (irda.c lines 191-200): stores the value
into the timeout field unconditionally. Returns the C return value and the
updated handle. -/
def irda_socket_set_timeout (device : Option irda) (timeout : Int) :
    Int × Option irda :=
  match device with
  | none => (-1, none)
  | some d => (0, some { d with timeout := timeout })

/-- Embeds the timeval computation and the deadline argument of the select
call in irda_socket_read (irda.c lines 379-383 and 391): a non-negative
timeout t yields the deadline (t / 1000 seconds, t % 1000 * 1000
microseconds); a negative timeout passes no deadline (NULL) to select. -/
def read_select_timeout (timeout : Int) : Option (Int × Int) :=
  if 0 ≤ timeout then some (timeout / 1000, timeout % 1000 * 1000) else none

/-- Outcome of one iteration of the read loop, as reported by the OS:
the select call fails, the select call times out, or select reports
readiness and the subsequent recv call returns n (n < 0 an OS error,
n = 0 end of stream, n > 0 that many bytes received). -/
inductive ReadStep where
  | selectErr : ReadStep
  | selectTimeout : ReadStep
  | ready : Int → ReadStep
deriving DecidableEq, Repr

/-- Embeds the loop of irda_socket_read (irda.c lines 389-410), consuming
one ReadStep per iteration. nbytes is the accumulated byte count. Returns
none when the loop needs an OS outcome beyond the trace. -/
def readLoop (size : Nat) : List ReadStep → Nat → Option Int
  | trace, nbytes =>
    if size ≤ nbytes then some (nbytes : Int)
    else
      match trace with
      | [] => none
      | ReadStep.selectErr :: _ => some (-1)
      | ReadStep.selectTimeout :: _ => some (nbytes : Int)
      | ReadStep.ready n :: rest =>
        if n < 0 then some (-1)
        else if n = 0 then some (nbytes : Int)
        else readLoop size rest (nbytes + n.toNat)

/-- Embeds irda_socket_read (irda.c lines 373-411): NULL handle check,
then the accumulation loop driven by the OS trace. -/
def irda_socket_read (device : Option irda) (size : Nat) (trace : List ReadStep) :
    Option Int :=
  match device with
  | none => some (-1)
  | some _ => readLoop size trace 0

/-- Checks that a read trace respects the OS contract for recv: the value
returned by a recv call never exceeds the number of bytes requested, which
is size - nbytes at that point of the loop. -/
def readTraceValid (size : Nat) : List ReadStep → Nat → Bool
  | [], _ => true
  | step :: rest, nbytes =>
    if size ≤ nbytes then true
    else
      match step with
      | ReadStep.selectErr => true
      | ReadStep.selectTimeout => true
      | ReadStep.ready n =>
        decide (n ≤ (size : Int) - (nbytes : Int)) &&
          (decide (n < 0) || readTraceValid size rest (nbytes + n.toNat))

/-- Embeds the loop of irda_socket_write (irda.c lines 420-429): one send
outcome per iteration, n < 0 an OS error, otherwise n bytes accepted. -/
def writeLoop (size : Nat) : List Int → Nat → Option Int
  | trace, nbytes =>
    if size ≤ nbytes then some (nbytes : Int)
    else
      match trace with
      | [] => none
      | n :: rest =>
        if n < 0 then some (-1)
        else writeLoop size rest (nbytes + n.toNat)

/-- Embeds irda_socket_write (irda.c lines 414-432). -/
def irda_socket_write (device : Option irda) (size : Nat) (trace : List Int) :
    Option Int :=
  match device with
  | none => some (-1)
  | some _ => writeLoop size trace 0

/-- Checks that a write trace respects the OS contract for send: the value
returned by a send call never exceeds the number of bytes requested. -/
def writeTraceValid (size : Nat) : List Int → Nat → Bool
  | [], _ => true
  | n :: rest, nbytes =>
    if size ≤ nbytes then true
    else
      decide (n ≤ (size : Int) - (nbytes : Int)) &&
        (decide (n < 0) || writeTraceValid size rest (nbytes + n.toNat))

/-- Embeds irda_socket_available (irda.c lines 351-370): ioctlBytes is
some b when the FIONREAD query succeeds with b bytes queued, none when the
query fails. -/
def irda_socket_available (device : Option irda) (ioctlBytes : Option Nat) : Int :=
  match device with
  | none => -1
  | some _ =>
    match ioctlBytes with
    | none => -1
    | some b => b

/-- Big-endian assembly of four byte values into a 32-bit quantity. -/
def beAssemble4 (b0 b1 b2 b3 : Nat) : Nat :=
  ((b0 * 256 + b1) * 256 + b2) * 256 + b3

/-- Big-endian assembly of two byte values into a 16-bit quantity. -/
def beAssemble2 (b0 b1 : Nat) : Nat :=
  b0 * 256 + b1

/-- Raw discovery entry on the POSIX platform; mirrors
struct irda_device_info of the OS IrDA socket layer: a 32-bit device
address daddr, a name string, a charset code, and two hint bytes. -/
structure RawDeviceLinux where
  daddr : Nat
  info : String
  charset : Nat
  hints0 : Fin 256
  hints1 : Fin 256
deriving DecidableEq, Repr

/-- Raw discovery entry on the Windows platform; mirrors IRDA_DEVICE_INFO
of the Winsock IrDA extension: four device-ID bytes, a name string, a
charset code, and two hint bytes. -/
structure RawDeviceWin where
  id0 : Fin 256
  id1 : Fin 256
  id2 : Fin 256
  id3 : Fin 256
  name : String
  charset : Nat
  hints1 : Fin 256
  hints2 : Fin 256
deriving DecidableEq, Repr

/-- Normalized discovery record: the arguments handed to the callback. -/
structure NormDevice where
  address : Nat
  name : String
  charset : Nat
  hints : Nat
deriving DecidableEq, Repr

/-- Embeds the POSIX callback-argument marshaling of irda_socket_discover
(irda.c lines 269-277): the hints are assembled from the two hint bytes as
hints[0] << 8 + hints[1]; the address daddr is passed through as is. -/
def normalizeLinux (r : RawDeviceLinux) : NormDevice :=
  { address := r.daddr
    name := r.info
    charset := r.charset
    hints := r.hints0.val <<< 8 + r.hints1.val }

/-- Embeds the Windows callback-argument marshaling of irda_socket_discover
(irda.c lines 255-266): the address is assembled from the four device-ID
bytes as id0 << 24 + id1 << 16 + id2 << 8 + id3, the hints from the two
hint bytes as hints1 << 8 + hints2. -/
def normalizeWin (r : RawDeviceWin) : NormDevice :=
  { address := r.id0.val <<< 24 + r.id1.val <<< 16 + r.id2.val <<< 8 + r.id3.val
    name := r.name
    charset := r.charset
    hints := r.hints1.val <<< 8 + r.hints2.val }

/-- Embeds the Windows callback loop of irda_socket_discover (irda.c lines
255-267): one callback invocation per entry, in list order. -/
def discover_callback_args_win (devs : List RawDeviceWin) : List NormDevice :=
  devs.map normalizeWin

/-- Outcome of one getsockopt IRLMP_ENUMDEVICES call: success with a device
list, failure with EAGAIN / WSAEWOULDBLOCK, or failure with any other
error. -/
inductive EnumResult where
  | ok : List RawDeviceLinux → EnumResult
  | wouldBlock : EnumResult
  | fail : EnumResult

/-- Embeds the retry loop and the callback loop of irda_socket_discover
(irda.c lines 229-281) on the POSIX platform, consuming one EnumResult per
getsockopt call. n is the retry counter, sleeps the number of one-second
sleep calls performed so far. Returns the C return value, the list of
callback invocations (in order, empty when callback is NULL), and the
total number of sleep calls; none when the loop needs an OS outcome beyond
the trace. -/
def discoverLoop (callback : Bool) :
    List EnumResult → Nat → Nat → Option (Int × List NormDevice × Nat)
  | [], _, _ => none
  | EnumResult.ok devs :: _, _, sleeps =>
    some (0, if callback then devs.map normalizeLinux else [], sleeps)
  | EnumResult.fail :: _, _, sleeps => some (-1, [], sleeps)
  | EnumResult.wouldBlock :: rest, n, sleeps =>
    if DISCOVER_MAX_RETRIES ≤ n then some (0, [], sleeps)
    else discoverLoop callback rest (n + 1) (sleeps + 1)

/-- Embeds irda_socket_discover (irda.c lines 214-282) on the POSIX
platform: NULL handle check, then the bounded-retry polling loop. -/
def irda_socket_discover (device : Option irda) (callback : Bool)
    (trace : List EnumResult) : Option (Int × List NormDevice × Nat) :=
  match device with
  | none => some (-1, [], 0)
  | some _ => discoverLoop callback trace 0 0

/-- Outgoing peer-address structure on the POSIX platform; mirrors
struct sockaddr_irda: a 32-bit device address, a numeric LSAP selector,
and a 25-byte service-name field modelled as a character list. -/
structure sockaddr_irda_linux where
  sir_addr : Nat
  sir_lsap_sel : Nat
  sir_name : List Char
deriving DecidableEq, Repr

/-- Outgoing peer-address structure on the Windows platform; mirrors
SOCKADDR_IRDA: four device-ID bytes and a 25-byte service-name field
modelled as a character list. -/
structure sockaddr_irda_win where
  id0 : Nat
  id1 : Nat
  id2 : Nat
  id3 : Nat
  serviceName : List Char
deriving DecidableEq, Repr

/-- Embeds the peer-address construction of irda_socket_connect_lsap on
the Windows platform (irda.c lines 327-333): the device-ID bytes are the
big-endian split of the address ((address >> k) & 0xFF), and snprintf
with buffer size 25 writes LSAP-SEL followed by the decimal selector,
truncated to 24 characters. -/
def connect_lsap_peer_win (address lsap : Nat) : sockaddr_irda_win :=
  { id0 := (address >>> 24) % 256
    id1 := (address >>> 16) % 256
    id2 := (address >>> 8) % 256
    id3 := address % 256
    serviceName := (String.toList "LSAP-SEL" ++ Nat.toDigits 10 lsap).take 24 }

/-- Embeds the peer-address construction of irda_socket_connect_lsap on
the POSIX platform (irda.c lines 335-339): the 32-bit address is stored
directly in sir_addr and the name field is zero-filled; sir_lsap_sel is a
one-byte field (__u8 in struct sockaddr_irda of linux/irda.h), so the
assignment of the unsigned int selector at line 338 stores it reduced
modulo 256. -/
def connect_lsap_peer_linux (address lsap : Nat) : sockaddr_irda_linux :=
  { sir_addr := address
    sir_lsap_sel := lsap % 256
    sir_name := [] }

/-- Embeds irda_socket_connect_lsap (irda.c lines 320-348) on the POSIX
platform: NULL handle check, peer construction, connect call whose outcome
is connectOk. Returns the C return value and the peer structure passed to
connect (none when no connect call is made). -/
def irda_socket_connect_lsap (device : Option irda) (address lsap : Nat)
    (connectOk : Bool) : Int × Option sockaddr_irda_linux :=
  match device with
  | none => (-1, none)
  | some _ =>
    (if connectOk then 0 else -1, some (connect_lsap_peer_linux address lsap))

/-- Embeds the peer-address construction of irda_socket_connect_name on
the POSIX platform (irda.c lines 303-309): address stored directly, name
truncated to 25 characters by strncpy when present, zero-filled when
absent, and the LSAP selector left at zero. -/
def connect_name_peer_linux (address : Nat) (name : Option (List Char)) :
    sockaddr_irda_linux :=
  { sir_addr := address
    sir_lsap_sel := 0
    sir_name :=
      match name with
      | some s => s.take 25
      | none => [] }

/-- Embeds irda_socket_connect_name (irda.c lines 285-318) on the POSIX
platform. -/
def irda_socket_connect_name (device : Option irda) (address : Nat)
    (name : Option (List Char)) (connectOk : Bool) :
    Int × Option sockaddr_irda_linux :=
  match device with
  | none => (-1, none)
  | some _ =>
    (if connectOk then 0 else -1, some (connect_name_peer_linux address name))

/-! ### Helper lemmas about the loop embeddings -/

theorem readLoop_done (size : Nat) (trace : List ReadStep) (nb : Nat) (h : size ≤ nb) :
    readLoop size trace nb = some (nb : Int) := by
  unfold readLoop
  simp [h]

theorem readLoop_cons (size : Nat) (step : ReadStep) (rest : List ReadStep) (nb : Nat)
    (h : nb < size) :
    readLoop size (step :: rest) nb =
      match step with
      | ReadStep.selectErr => some (-1)
      | ReadStep.selectTimeout => some (nb : Int)
      | ReadStep.ready n =>
        if n < 0 then some (-1)
        else if n = 0 then some (nb : Int)
        else readLoop size rest (nb + n.toNat) := by
  conv_lhs => unfold readLoop
  simp only [Nat.not_le.mpr h, if_false]
  cases step <;> rfl

theorem writeLoop_done (size : Nat) (trace : List Int) (nb : Nat) (h : size ≤ nb) :
    writeLoop size trace nb = some (nb : Int) := by
  unfold writeLoop
  simp [h]

theorem writeLoop_cons (size : Nat) (n : Int) (rest : List Int) (nb : Nat)
    (h : nb < size) :
    writeLoop size (n :: rest) nb =
      if n < 0 then some (-1) else writeLoop size rest (nb + n.toNat) := by
  conv_lhs => unfold writeLoop
  simp [Nat.not_le.mpr h]

theorem readLoop_valid_bound (size : Nat) :
    ∀ (trace : List ReadStep) (nb : Nat), nb ≤ size →
      readTraceValid size trace nb = true →
      ∀ r : Int, readLoop size trace nb = some r →
        r = -1 ∨ (0 ≤ r ∧ r ≤ (size : Int)) := by
  intro trace
  induction trace with
  | nil =>
    intro nb hnb _ r hr
    unfold readLoop at hr
    by_cases h : size ≤ nb
    · simp only [h, if_true, Option.some.injEq] at hr
      right
      omega
    · simp [h] at hr
  | cons step rest ih =>
    intro nb hnb hv r hr
    by_cases h : size ≤ nb
    · rw [readLoop_done size _ nb h] at hr
      simp only [Option.some.injEq] at hr
      right
      omega
    · rw [readLoop_cons size step rest nb (Nat.lt_of_not_le h)] at hr
      unfold readTraceValid at hv
      simp only [h, if_false] at hv
      cases step with
      | selectErr =>
        simp only [Option.some.injEq] at hr
        left
        omega
      | selectTimeout =>
        simp only [Option.some.injEq] at hr
        right
        omega
      | ready n =>
        simp only [Bool.and_eq_true, Bool.or_eq_true, decide_eq_true_eq] at hv
        obtain ⟨hle, hrest⟩ := hv
        by_cases hn : n < 0
        · simp only [hn, if_true, Option.some.injEq] at hr
          left
          omega
        · simp only [hn, if_false] at hr
          by_cases hz : n = 0
          · simp only [hz, if_true, Option.some.injEq] at hr
            right
            omega
          · simp only [hz, if_false] at hr
            have hrest2 : readTraceValid size rest (nb + n.toNat) = true := by
              rcases hrest with hneg | hok
              · exact absurd hneg hn
              · exact hok
            exact ih (nb + n.toNat) (by omega) hrest2 r hr

theorem writeLoop_valid_exact (size : Nat) :
    ∀ (trace : List Int) (nb : Nat), nb ≤ size →
      writeTraceValid size trace nb = true →
      ∀ r : Int, writeLoop size trace nb = some r →
        r = -1 ∨ r = (size : Int) := by
  intro trace
  induction trace with
  | nil =>
    intro nb hnb _ r hr
    unfold writeLoop at hr
    by_cases h : size ≤ nb
    · simp only [h, if_true, Option.some.injEq] at hr
      right
      omega
    · simp [h] at hr
  | cons n rest ih =>
    intro nb hnb hv r hr
    by_cases h : size ≤ nb
    · rw [writeLoop_done size _ nb h] at hr
      simp only [Option.some.injEq] at hr
      right
      omega
    · rw [writeLoop_cons size n rest nb (Nat.lt_of_not_le h)] at hr
      unfold writeTraceValid at hv
      simp only [h, if_false, Bool.and_eq_true, Bool.or_eq_true, decide_eq_true_eq] at hv
      obtain ⟨hle, hrest⟩ := hv
      by_cases hn : n < 0
      · simp only [hn, if_true, Option.some.injEq] at hr
        left
        omega
      · simp only [hn, if_false] at hr
        have hrest2 : writeTraceValid size rest (nb + n.toNat) = true := by
          rcases hrest with hneg | hok
          · exact absurd hneg hn
          · exact hok
        exact ih (nb + n.toNat) (by omega) hrest2 r hr

theorem discoverLoop_ok (cb : Bool) (devs : List RawDeviceLinux)
    (rest : List EnumResult) (n s : Nat) :
    discoverLoop cb (EnumResult.ok devs :: rest) n s =
      some (0, if cb then devs.map normalizeLinux else [], s) :=
  rfl

theorem discoverLoop_fail (cb : Bool) (rest : List EnumResult) (n s : Nat) :
    discoverLoop cb (EnumResult.fail :: rest) n s = some (-1, [], s) :=
  rfl

theorem discoverLoop_wouldBlock (cb : Bool) (rest : List EnumResult) (n s : Nat) :
    discoverLoop cb (EnumResult.wouldBlock :: rest) n s =
      if DISCOVER_MAX_RETRIES ≤ n then some (0, [], s)
      else discoverLoop cb rest (n + 1) (s + 1) :=
  rfl

theorem discoverLoop_replicate (cb : Bool) (k : Nat) :
    ∀ (n s : Nat), n + k ≤ DISCOVER_MAX_RETRIES → ∀ tail : List EnumResult,
      discoverLoop cb (List.replicate k EnumResult.wouldBlock ++ tail) n s =
        discoverLoop cb tail (n + k) (s + k) := by
  induction k with
  | zero =>
    intro n s _ tail
    simp
  | succ k ih =>
    intro n s h tail
    rw [List.replicate_succ, List.cons_append, discoverLoop_wouldBlock]
    have hn : ¬ DISCOVER_MAX_RETRIES ≤ n := by
      unfold DISCOVER_MAX_RETRIES at h ⊢
      omega
    rw [if_neg hn, ih (n + 1) (s + 1) (by omega) tail]
    have e1 : n + 1 + k = n + (k + 1) := by omega
    have e2 : s + 1 + k = s + (k + 1) := by omega
    rw [e1, e2]

/-! ### Claim theorems -/

/-- C5: every operation taking a handle (close, set_timeout, discover,
connect_by_name, connect_by_lsap, available, read, write) called with an
absent (null) handle returns -1 (InvalidArgument) immediately — the result
is the same for every possible OS behaviour, no memory is freed and no
shutdown request is issued, so no OS call is made; open called with a null
output slot likewise returns -1. -/
theorem null_handle_invalid_argument :
    (∀ mallocOk socketFd, irda_socket_open true mallocOk socketFd = (-1, none))
  ∧ (∀ shutdownOk closeOk, irda_socket_close none shutdownOk closeOk =
      { ret := -1, freed := false, shutdownCalled := false })
  ∧ (∀ t, irda_socket_set_timeout none t = (-1, none))
  ∧ (∀ cb trace, irda_socket_discover none cb trace = some (-1, [], 0))
  ∧ (∀ a nm cOk, irda_socket_connect_name none a nm cOk = (-1, none))
  ∧ (∀ a l cOk, irda_socket_connect_lsap none a l cOk = (-1, none))
  ∧ (∀ b, irda_socket_available none b = -1)
  ∧ (∀ size trace, irda_socket_read none size trace = some (-1))
  ∧ (∀ size trace, irda_socket_write none size trace = some (-1)) :=
  ⟨fun _ _ => rfl, fun _ _ => rfl, fun _ => rfl, fun _ _ => rfl,
    fun _ _ _ => rfl, fun _ _ _ => rfl, fun _ => rfl, fun _ _ => rfl,
    fun _ _ => rfl⟩

/-- C6: close with a valid handle always frees the backing memory: when
the OS descriptor release fails the memory is still freed and close
returns -1 (SocketError); when it succeeds the memory is freed and close
returns 0; and the whole outcome is independent of the result of the
preceding shutdown request, whose failure is not fatal. -/
theorem close_always_frees (d : irda) (shutdownOk closeOk : Bool) :
    (irda_socket_close (some d) shutdownOk closeOk).freed = true
  ∧ (irda_socket_close (some d) shutdownOk true).ret = 0
  ∧ (irda_socket_close (some d) shutdownOk false).ret = -1
  ∧ irda_socket_close (some d) shutdownOk closeOk =
      irda_socket_close (some d) true closeOk := by
  unfold irda_socket_close
  cases closeOk <;> simp

/-- C8: set_timeout stores any millisecond value, negative values
included, into the timeout field unconditionally and reports success; only
the read path interprets a negative stored timeout specially, passing no
deadline to the readiness wait, while a non-negative timeout yields the
timeval deadline (t / 1000 seconds, t % 1000 * 1000 microseconds); open
initialises the timeout to -1, the block-indefinitely value. -/
theorem set_timeout_unvalidated_store (d : irda) (t : Int) (fd : Int) :
    irda_socket_set_timeout (some d) t = (0, some { fd := d.fd, timeout := t })
  ∧ (t < 0 → read_select_timeout t = none)
  ∧ (0 ≤ t → read_select_timeout t = some (t / 1000, t % 1000 * 1000))
  ∧ irda_socket_open false true (some fd) = (0, some { fd := fd, timeout := -1 })
  ∧ read_select_timeout (-1) = none := by
  refine ⟨rfl, fun h => ?_, fun h => ?_, rfl, by decide⟩
  · unfold read_select_timeout
    rw [if_neg (by omega)]
  · unfold read_select_timeout
    rw [if_pos h]

/-- Witness for C8 at concrete inputs: a negative timeout passes no
deadline, a non-negative one the millisecond split. -/
theorem set_timeout_unvalidated_store_witness :
    ((-7 : Int) < 0 ∧ read_select_timeout (-7) = none)
  ∧ ((0 : Int) ≤ 2500 ∧ read_select_timeout 2500 = some (2, 500000)) := by
  constructor
  · exact ⟨by decide,
      (set_timeout_unvalidated_store ⟨1, -1⟩ (-7) 0).2.1 (by decide)⟩
  · refine ⟨by decide, ?_⟩
    have h := (set_timeout_unvalidated_store ⟨1, -1⟩ 2500 0).2.2.1 (by decide)
    rw [h]
    decide

/-- C9: every failure of every operation returns the same sentinel value
-1, whether the cause is a null out slot, an allocation failure, a null
handle, or an OS socket / ioctl / select / recv / send error; the return
value alone does not distinguish the causes. -/
theorem uniform_error_sentinel (d : irda) :
    (irda_socket_open true true (some 3)).1 = -1
  ∧ (∀ socketFd, (irda_socket_open false false socketFd).1 = -1)
  ∧ (irda_socket_open false true none).1 = -1
  ∧ (∀ shutdownOk, (irda_socket_close (some d) shutdownOk false).ret = -1)
  ∧ (irda_socket_close none true true).ret = -1
  ∧ (irda_socket_set_timeout none 0).1 = -1
  ∧ (∀ cb rest, irda_socket_discover (some d) cb (EnumResult.fail :: rest) =
      some (-1, [], 0))
  ∧ (∀ a nm, (irda_socket_connect_name (some d) a nm false).1 = -1)
  ∧ (∀ a l, (irda_socket_connect_lsap (some d) a l false).1 = -1)
  ∧ irda_socket_available (some d) none = -1
  ∧ (∀ size rest, 0 < size →
      irda_socket_read (some d) size (ReadStep.selectErr :: rest) = some (-1))
  ∧ (∀ size n rest, 0 < size → n < 0 →
      irda_socket_read (some d) size (ReadStep.ready n :: rest) = some (-1))
  ∧ (∀ size n rest, 0 < size → n < 0 →
      irda_socket_write (some d) size (n :: rest) = some (-1)) := by
  refine ⟨rfl, fun _ => rfl, rfl, fun _ => rfl, rfl, rfl, fun _ _ => rfl,
    fun _ _ => rfl, fun _ _ => rfl, rfl, ?_, ?_, ?_⟩
  · intro size rest hs
    show readLoop size (ReadStep.selectErr :: rest) 0 = some (-1)
    rw [readLoop_cons size ReadStep.selectErr rest 0 hs]
  · intro size n rest hs hn
    show readLoop size (ReadStep.ready n :: rest) 0 = some (-1)
    rw [readLoop_cons size (ReadStep.ready n) rest 0 hs]
    simp [hn]
  · intro size n rest hs hn
    show writeLoop size (n :: rest) 0 = some (-1)
    rw [writeLoop_cons size n rest 0 hs, if_pos hn]

/-- Witness for C9 at concrete inputs: a select error and a send error
both yield the sentinel -1. -/
theorem uniform_error_sentinel_witness :
    (0 < 4 ∧ irda_socket_read (some ⟨1, -1⟩) 4 [ReadStep.selectErr] = some (-1))
  ∧ (0 < 4 ∧ (-2 : Int) < 0 ∧
      irda_socket_write (some ⟨1, -1⟩) 4 [-2] = some (-1)) := by
  obtain ⟨h1, h2, h3, h4, h5, h6, h7, h8, h9, h10, h11, h12, h13⟩ :=
    uniform_error_sentinel ⟨1, -1⟩
  exact ⟨⟨by decide, h11 4 [] (by decide)⟩,
    ⟨by decide, by decide, h13 4 (-2) [] (by decide) (by decide)⟩⟩

/-- C10: with a valid handle, read called with max_size 0 returns 0 and
write called with size 0 returns 0, immediately: the result is the same
for every OS trace, and in particular for the empty trace, in which any
readiness wait, receive or send call would have left the outcome
undetermined — so none is performed. -/
theorem zero_size_io_immediate (d : irda) :
    (∀ trace, irda_socket_read (some d) 0 trace = some 0)
  ∧ irda_socket_read (some d) 0 [] = some 0
  ∧ (∀ trace, irda_socket_write (some d) 0 trace = some 0)
  ∧ irda_socket_write (some d) 0 [] = some 0 :=
  ⟨fun trace => readLoop_done 0 trace 0 (Nat.le_refl 0),
    readLoop_done 0 [] 0 (Nat.le_refl 0),
    fun trace => writeLoop_done 0 trace 0 (Nat.le_refl 0),
    writeLoop_done 0 [] 0 (Nat.le_refl 0)⟩

/-- C1: for a valid handle and max_size, read loops accumulating received
bytes until max_size bytes are collected, the readiness wait times out,
the receive reports end of stream, or an error occurs, whichever comes
first: a timeout or a zero-byte receive stops the loop and returns the
accumulated count (possibly zero) as a non-error result; a failed
readiness wait or a receive reporting an OS error makes the whole call
return -1 (SocketError), discarding the bytes accumulated in this call; a
positive receive adds to the accumulator and the loop continues; reaching
max_size stops the loop; and under the OS recv contract the overall result
is either -1 or a count between 0 and max_size. -/
theorem read_terminal_behaviour (d : irda) (size nb : Nat) (rest : List ReadStep)
    (h : nb < size) :
    readLoop size (ReadStep.selectTimeout :: rest) nb = some (nb : Int)
  ∧ readLoop size (ReadStep.ready 0 :: rest) nb = some (nb : Int)
  ∧ readLoop size (ReadStep.selectErr :: rest) nb = some (-1)
  ∧ (∀ n : Int, n < 0 → readLoop size (ReadStep.ready n :: rest) nb = some (-1))
  ∧ (∀ n : Int, 0 < n →
      readLoop size (ReadStep.ready n :: rest) nb =
        readLoop size rest (nb + n.toNat))
  ∧ (∀ trace, readLoop size trace size = some (size : Int))
  ∧ (∀ (trace : List ReadStep) (r : Int), readTraceValid size trace 0 = true →
      irda_socket_read (some d) size trace = some r →
      r = -1 ∨ (0 ≤ r ∧ r ≤ (size : Int))) := by
  refine ⟨?_, ?_, ?_, ?_, ?_, ?_, ?_⟩
  · rw [readLoop_cons _ _ _ _ h]
  · rw [readLoop_cons _ _ _ _ h]
    norm_num
  · rw [readLoop_cons _ _ _ _ h]
  · intro n hn
    rw [readLoop_cons _ _ _ _ h]
    simp [hn]
  · intro n hn
    rw [readLoop_cons _ _ _ _ h]
    have h1 : ¬ n < 0 := by omega
    have h2 : ¬ n = 0 := by omega
    simp [h1, h2]
  · intro trace
    exact readLoop_done size trace size (Nat.le_refl size)
  · intro trace r hv hr
    exact readLoop_valid_bound size trace 0 (Nat.zero_le size) hv r hr

/-- Witness for C1 at concrete inputs: with 2 of 5 bytes accumulated, a
timeout returns the partial count 2 as a non-error result. -/
theorem read_terminal_behaviour_witness :
    2 < 5 ∧ readLoop 5 [ReadStep.selectTimeout] 2 = some 2 :=
  ⟨by decide, (read_terminal_behaviour ⟨1, -1⟩ 5 2 [] (by decide)).1⟩

/-- C2: for a valid handle and a buffer of size S, write loops issuing
send calls until all S bytes are transmitted; under the OS send contract
the only possible outcomes are exactly S on success and -1 (SocketError)
when some send call reports an error — a partial count is never returned,
and a send error aborts the whole operation to -1 whatever the count
already transmitted. -/
theorem write_all_or_error (d : irda) (size : Nat) :
    (∀ (trace : List Int) (r : Int), writeTraceValid size trace 0 = true →
      irda_socket_write (some d) size trace = some r →
      r = (size : Int) ∨ r = -1)
  ∧ (∀ n : Int, n < 0 → ∀ (rest : List Int) (nb : Nat), nb < size →
      writeLoop size (n :: rest) nb = some (-1)) := by
  constructor
  · intro trace r hv hr
    rcases writeLoop_valid_exact size trace 0 (Nat.zero_le size) hv r hr with
      h1 | h2
    · right
      exact h1
    · left
      exact h2
  · intro n hn rest nb hnb
    rw [writeLoop_cons size n rest nb hnb, if_pos hn]

/-- Witness for C2 at concrete inputs: a write of 3 bytes completed in two
sends returns exactly 3; a failing send with 1 byte already transmitted
returns -1. -/
theorem write_all_or_error_witness :
    (writeTraceValid 3 [2, 1] 0 = true ∧ ((3 : Int) = 3 ∨ (3 : Int) = -1))
  ∧ ((-2 : Int) < 0 ∧ 1 < 3 ∧ writeLoop 3 [-2] 1 = some (-1)) := by
  constructor
  · exact ⟨by decide, (write_all_or_error ⟨1, -1⟩ 3).1 [2, 1] 3 (by decide)
      (by decide)⟩
  · exact ⟨by decide, by decide,
      (write_all_or_error ⟨1, -1⟩ 3).2 (-2) (by decide) [] 1 (by decide)⟩

/-- C3: for a valid handle, discover retries the enumeration query after a
one-second sleep each time the OS reports would-block, up to 4 retries (k
would-block responses followed by a successful query give a success after
k sleeps, for k up to 4); a fifth consecutive would-block exhausts the
budget and discover returns 0 (success) with zero devices and the callback
never invoked; an OS error other than would-block makes discover return -1
immediately. -/
theorem discover_retry_policy (d : irda) (k : Nat)
    (hk : k ≤ DISCOVER_MAX_RETRIES) (devs : List RawDeviceLinux)
    (rest : List EnumResult) :
    irda_socket_discover (some d) true
        (List.replicate k EnumResult.wouldBlock ++ [EnumResult.ok devs]) =
      some (0, devs.map normalizeLinux, k)
  ∧ irda_socket_discover (some d) true
        (List.replicate k EnumResult.wouldBlock ++ EnumResult.fail :: rest) =
      some (-1, [], k)
  ∧ irda_socket_discover (some d) true
        (List.replicate (DISCOVER_MAX_RETRIES + 1) EnumResult.wouldBlock ++ rest) =
      some (0, [], DISCOVER_MAX_RETRIES) := by
  refine ⟨?_, ?_, ?_⟩
  · show discoverLoop true _ 0 0 = _
    rw [discoverLoop_replicate true k 0 0 (by omega) _, discoverLoop_ok]
    simp
  · show discoverLoop true _ 0 0 = _
    rw [discoverLoop_replicate true k 0 0 (by omega) _, discoverLoop_fail]
    simp
  · show discoverLoop true _ 0 0 = _
    rw [show DISCOVER_MAX_RETRIES + 1 = DISCOVER_MAX_RETRIES + 1 from rfl,
      List.replicate_add, List.append_assoc, List.replicate_one,
      List.singleton_append,
      discoverLoop_replicate true DISCOVER_MAX_RETRIES 0 0 (by omega) _,
      discoverLoop_wouldBlock]
    simp

/-- Witness for C3 at concrete inputs: three would-block responses
followed by a successful query discover one device after three sleeps. -/
theorem discover_retry_policy_witness :
    3 ≤ DISCOVER_MAX_RETRIES ∧
      irda_socket_discover (some ⟨1, -1⟩) true
          (List.replicate 3 EnumResult.wouldBlock ++
            [EnumResult.ok [⟨7, "dev", 0, 1, 2⟩]]) =
        some (0, [⟨7, "dev", 0, 258⟩], 3) := by
  refine ⟨by decide, ?_⟩
  have h := (discover_retry_policy ⟨1, -1⟩ 3 (by decide) [⟨7, "dev", 0, 1, 2⟩] []).1
  rw [h]
  rfl

/-- C4: on a successful discovery with a callback, the callback is invoked
exactly once per discovered entry, in the OS-returned order (the list of
invocations is the entry list mapped through the normalization, entry by
entry at every index); the 16-bit hints are assembled big-endian from the
two raw hint bytes on both platforms; the 32-bit address is assembled
big-endian from the four raw device-ID bytes on Windows, and on POSIX the
32-bit value supplied by the OS is passed through, equal to the big-endian
assembly of its own four big-endian bytes; without a callback no
invocation happens. -/
theorem discover_callback_marshaling (d : irda) :
    (∀ r : RawDeviceWin, (normalizeWin r).address =
        beAssemble4 r.id0.val r.id1.val r.id2.val r.id3.val
      ∧ (normalizeWin r).hints = beAssemble2 r.hints1.val r.hints2.val)
  ∧ (∀ r : RawDeviceLinux, (normalizeLinux r).hints =
        beAssemble2 r.hints0.val r.hints1.val
      ∧ (r.daddr < 2 ^ 32 → (normalizeLinux r).address =
          beAssemble4 (r.daddr / 2 ^ 24 % 256) (r.daddr / 2 ^ 16 % 256)
            (r.daddr / 2 ^ 8 % 256) (r.daddr % 256)))
  ∧ (∀ devs : List RawDeviceWin,
        (discover_callback_args_win devs).length = devs.length
      ∧ ∀ i : Nat, (discover_callback_args_win devs)[i]? =
          Option.map normalizeWin devs[i]?)
  ∧ (∀ (devs : List RawDeviceLinux) (rest : List EnumResult),
        irda_socket_discover (some d) true (EnumResult.ok devs :: rest) =
          some (0, devs.map normalizeLinux, 0)
      ∧ (devs.map normalizeLinux).length = devs.length
      ∧ ∀ i : Nat, (devs.map normalizeLinux)[i]? =
          Option.map normalizeLinux devs[i]?)
  ∧ (∀ (devs : List RawDeviceLinux) (rest : List EnumResult),
        irda_socket_discover (some d) false (EnumResult.ok devs :: rest) =
          some (0, [], 0)) := by
  refine ⟨?_, ?_, ?_, ?_, ?_⟩
  · intro r
    constructor
    · simp only [normalizeWin, beAssemble4, Nat.shiftLeft_eq]
      ring
    · simp only [normalizeWin, beAssemble2, Nat.shiftLeft_eq]
  · intro r
    constructor
    · simp only [normalizeLinux, beAssemble2, Nat.shiftLeft_eq]
    · intro h
      simp only [normalizeLinux, beAssemble4]
      omega
  · intro devs
    refine ⟨by simp [discover_callback_args_win], fun i => ?_⟩
    simp [discover_callback_args_win, List.getElem?_map]
  · intro devs rest
    refine ⟨?_, by simp, fun i => by simp [List.getElem?_map]⟩
    show discoverLoop true _ 0 0 = _
    rw [discoverLoop_ok]
    simp
  · intro devs rest
    show discoverLoop false _ 0 0 = _
    rw [discoverLoop_ok]
    simp

/-- Witness for C4 at a concrete input: the POSIX address 0x12345678 is
the big-endian assembly of its bytes 0x12, 0x34, 0x56, 0x78. -/
theorem discover_callback_marshaling_witness :
    (0x12345678 : Nat) < 2 ^ 32 ∧
      (normalizeLinux ⟨0x12345678, "x", 0, 0, 0⟩).address =
        beAssemble4 0x12 0x34 0x56 0x78 := by
  refine ⟨by norm_num, ?_⟩
  have h := ((discover_callback_marshaling ⟨1, -1⟩).2.1
    ⟨0x12345678, "x", 0, 0, 0⟩).2 (by norm_num)
  rw [h]
  decide

/-- Length bound for the decimal digit characters of a number below
10 ^ 10: at most 10. -/
theorem toDigits_len_le_ten (n : Nat) (h : n < 10 ^ 10) :
    (Nat.toDigits 10 n).length ≤ 10 := by
  unfold Nat.toDigits
  exact Nat.toDigitsCore_length 10 (by norm_num) (n + 1) n 10 h (by norm_num)

/-- C7, amended: connect_by_lsap with a valid handle builds the outgoing
peer address so that, on Windows, the four device-ID bytes are the
big-endian split of the 32-bit input address (their big-endian assembly
gives the address back) and — the platform lacking a native selector
field — the service-name field holds the literal string LSAP-SEL followed
by the decimal selector (never truncated for a 32-bit selector); on POSIX
the structure holds the 32-bit address unchanged, so its bytes are the
big-endian split of the input, the native one-byte selector field holds
the requested access-point number reduced modulo 256 — equal to the
requested number whenever it is below 256 — and exactly this structure is
handed to the connect call. -/
theorem connect_lsap_peer_structure (d : irda) (address lsap : Nat)
    (connectOk : Bool) (hA : address < 2 ^ 32) (hL : lsap < 2 ^ 32) :
    beAssemble4 (connect_lsap_peer_win address lsap).id0
        (connect_lsap_peer_win address lsap).id1
        (connect_lsap_peer_win address lsap).id2
        (connect_lsap_peer_win address lsap).id3 = address
  ∧ (connect_lsap_peer_win address lsap).serviceName =
      String.toList "LSAP-SEL" ++ Nat.toDigits 10 lsap
  ∧ (connect_lsap_peer_linux address lsap).sir_addr = address
  ∧ (connect_lsap_peer_linux address lsap).sir_lsap_sel = lsap % 256
  ∧ (lsap < 256 → (connect_lsap_peer_linux address lsap).sir_lsap_sel = lsap)
  ∧ irda_socket_connect_lsap (some d) address lsap connectOk =
      (if connectOk then 0 else -1,
        some (connect_lsap_peer_linux address lsap)) := by
  refine ⟨?_, ?_, rfl, rfl, fun h256 => Nat.mod_eq_of_lt h256, rfl⟩
  · simp only [connect_lsap_peer_win, beAssemble4, Nat.shiftRight_eq_div_pow]
    omega
  · simp only [connect_lsap_peer_win]
    apply List.take_of_length_le
    rw [List.length_append]
    have h1 : (String.toList "LSAP-SEL").length = 8 := by decide
    have h2 : (Nat.toDigits 10 lsap).length ≤ 10 :=
      toDigits_len_le_ten lsap (by omega)
    omega

/-- Witness for C7 at concrete inputs: address 0x01020304 and selector 42
give device-ID bytes reassembling to the address and the service name
LSAP-SEL42. -/
theorem connect_lsap_peer_structure_witness :
    ((0x01020304 : Nat) < 2 ^ 32 ∧ (42 : Nat) < 2 ^ 32)
  ∧ beAssemble4 (connect_lsap_peer_win 0x01020304 42).id0
      (connect_lsap_peer_win 0x01020304 42).id1
      (connect_lsap_peer_win 0x01020304 42).id2
      (connect_lsap_peer_win 0x01020304 42).id3 = 0x01020304
  ∧ (connect_lsap_peer_win 0x01020304 42).serviceName =
      String.toList "LSAP-SEL42" := by
  have h := connect_lsap_peer_structure ⟨1, -1⟩ 0x01020304 42 true
    (by norm_num) (by norm_num)
  refine ⟨⟨by norm_num, by norm_num⟩, h.1, ?_⟩
  rw [h.2.1]
  decide

/-- Counterexample for the unamended form of C7: on POSIX the selector
field of the peer structure is one byte wide, so requesting access point
300 stores 44 (300 reduced modulo 256) in the selector field, not the
requested number 300. -/
theorem connect_lsap_selector_truncated :
    (connect_lsap_peer_linux 1 300).sir_lsap_sel = 44
  ∧ ¬ (connect_lsap_peer_linux 1 300).sir_lsap_sel = 300 := by
  decide
